import Mathlib

/-!
Shallow embedding of the control-plane core of drivers/net/mana/mana.c
(DPDK MANA poll-mode driver) and proofs about it.

Modelling conventions:
- C ints are Lean `Int`; sizes and counts are `Nat`.
- Fallible external collaborators (rdma-core verbs calls, EAL allocators,
  queue start/stop helpers living in other files of the driver) are
  modelled as oracle parameters carrying the return value the collaborator
  reports; the control flow acting on those values is translated from
  mana.c line by line.
- Errno-style error codes: EINVAL = 22, ENOMEM = 12, ENODEV = 19.
-/

/-- errno EINVAL. -/
def EINVAL : Int := 22

/-- errno ENOMEM. -/
def ENOMEM : Int := 12

/-- errno ENODEV. -/
def ENODEV : Int := 19

/-- Modelled from the spec: power-of-two test `rte_is_power_of_2` from
rte_common.h (the EAL header is not under src/); it decides "n is a power
of two", here via the base-2 logarithm. -/
def rte_is_power_of_2 (n : Nat) : Bool := n != 0 && 2 ^ Nat.log2 n == n

/-- The boolean power-of-two test agrees with the mathematical notion. -/
theorem rte_is_power_of_2_iff (n : Nat) : rte_is_power_of_2 n = true ↔ ∃ k, n = 2 ^ k := by
  constructor
  · intro h
    simp only [rte_is_power_of_2, Bool.and_eq_true, bne_iff_ne, beq_iff_eq] at h
    exact ⟨Nat.log2 n, h.2.symm⟩
  · rintro ⟨k, rfl⟩
    simp only [rte_is_power_of_2, Bool.and_eq_true, bne_iff_ne, beq_iff_eq]
    refine ⟨by positivity, ?_⟩
    rw [Nat.log2_eq_log_two, Nat.log_pow (by norm_num)]

/-! ## mana_dev_configure (mana.c lines 75-104), claim C5 -/

/-- The two fields of dev_conf->rxmode that mana_dev_configure touches. -/
structure EthRxMode where
  mq_mode_rss_flag : Bool
  offload_rss_hash : Bool
deriving DecidableEq

/-- The slice of struct mana_priv that mana_dev_configure writes. -/
structure ConfPriv where
  num_queues : Nat
deriving DecidableEq

/-- mana_dev_configure: equal rx/tx queue counts and a power-of-two count
are required; on success priv->num_queues is set to the rx queue count.
The manadv_set_context_attr call at the end installs allocator callbacks
and mutates no modelled state. -/
def mana_dev_configure (nb_rx_queues nb_tx_queues : Nat) (rxmode : EthRxMode)
    (priv : ConfPriv) : Int × EthRxMode × ConfPriv :=
  let rxmode1 := if rxmode.mq_mode_rss_flag then
    { rxmode with offload_rss_hash := true } else rxmode
  if nb_rx_queues ≠ nb_tx_queues then (-EINVAL, rxmode1, priv)
  else if !(rte_is_power_of_2 nb_rx_queues) then (-EINVAL, rxmode1, priv)
  else (0, rxmode1, { priv with num_queues := nb_rx_queues })

/-- C5: mana_dev_configure fails with a negative error whenever the rx and
tx queue counts differ or the count is not a power of two, leaving
priv->num_queues unassigned; when both constraints hold it returns 0 and
sets priv->num_queues to the rx queue count. -/
theorem mana_c5_configure_validation (nb_rx_queues nb_tx_queues : Nat)
    (rxmode : EthRxMode) (priv : ConfPriv) :
    ((nb_rx_queues ≠ nb_tx_queues ∨ rte_is_power_of_2 nb_rx_queues = false) →
      (mana_dev_configure nb_rx_queues nb_tx_queues rxmode priv).1 < 0 ∧
      (mana_dev_configure nb_rx_queues nb_tx_queues rxmode priv).2.2 = priv) ∧
    (nb_rx_queues = nb_tx_queues → rte_is_power_of_2 nb_rx_queues = true →
      (mana_dev_configure nb_rx_queues nb_tx_queues rxmode priv).1 = 0 ∧
      (mana_dev_configure nb_rx_queues nb_tx_queues rxmode priv).2.2.num_queues
        = nb_rx_queues) := by
  constructor
  · rintro (h | h) <;>
      simp only [mana_dev_configure, EINVAL] <;>
      split <;> simp_all
  · intro h1 h2
    subst h1
    simp [mana_dev_configure, h2]

/-- Witness for C5: with 4 rx and 2 tx queues configure fails and leaves
priv untouched; the hypothesis of the failure branch is discharged at this
concrete input. -/
theorem mana_c5_configure_validation_witness :
    (mana_dev_configure 4 2 ⟨false, false⟩ ⟨0⟩).1 < 0 ∧
    (mana_dev_configure 4 2 ⟨false, false⟩ ⟨0⟩).2.2 = ⟨0⟩ :=
  (mana_c5_configure_validation 4 2 ⟨false, false⟩ ⟨0⟩).1 (by decide)

/-! ## mana_intr_handler (mana.c lines 734-757), claim C2 -/

/-- Async event types delivered by ibv_get_async_event, collapsed to the
distinction the handler makes: IBV_EVENT_DEVICE_FATAL versus anything else. -/
inductive IbvEvent
  | fatal
  | benign
deriving DecidableEq

/-- mana_intr_handler: drains the async event source (the list holds the
events ibv_get_async_event yields before it reports no more), acking each
event; for every IBV_EVENT_DEVICE_FATAL event it invokes the removal
callback via rte_eth_dev_callback_process provided dev_conf.intr_conf.rmv
is set. Returns the number of callback invocations. -/
def mana_intr_handler (rmv : Bool) : List IbvEvent → Nat
  | [] => 0
  | e :: rest =>
    (match e with
      | .fatal => if rmv then 1 else 0
      | .benign => 0) + mana_intr_handler rmv rest

/-- Counterexample to C2: draining a source that reports the fatal event
twice (removal interrupts configured) invokes the removal callback twice,
not exactly once — the handler keeps no "already reported" flag. -/
theorem mana_c2_counterexample :
    IbvEvent.fatal ∈ [IbvEvent.fatal, IbvEvent.fatal] ∧
    mana_intr_handler true [IbvEvent.fatal, IbvEvent.fatal] = 2 ∧
    mana_intr_handler true [IbvEvent.fatal, IbvEvent.fatal] ≠ 1 := by
  refine ⟨by decide, by decide, by decide⟩

/-- C2 as amended: the removal callback is invoked once per fatal event
drained when removal interrupts are configured, and never otherwise; the
handler does not deduplicate fatal events. -/
theorem mana_c2_callback_per_fatal_event (rmv : Bool) (events : List IbvEvent) :
    mana_intr_handler rmv events =
      if rmv then events.count IbvEvent.fatal else 0 := by
  induction events with
  | nil => simp [mana_intr_handler]
  | cons e rest ih =>
    cases e <;> cases rmv <;>
      simp_all [mana_intr_handler, List.count_cons, Nat.add_comm]

/-! ## mana_intr_uninstall (mana.c lines 759-774), claim C8 -/

/-- mana_intr_uninstall: `unregister_ret` is what
rte_intr_callback_unregister reports (negative error, or the number of
callbacks it removed). Result: the returned int and whether
rte_intr_instance_free was called on priv->intr_handle. -/
def mana_intr_uninstall (unregister_ret : Int) : Int × Bool :=
  if unregister_ret ≤ 0 then (unregister_ret, false)
  else (0, true)

/-- C8: when deregistration reports the callback as already removed
(zero callbacks unregistered), mana_intr_uninstall takes its failure
branch — skipping the rte_intr_instance_free — yet returns 0, the very
value of the success case, so the failure is not distinguishable from
success by the caller (mana_dev_close checks `if (ret)`). A deregistration
reporting a negative error is propagated, and only a positive report frees
the instance and returns 0. -/
theorem mana_c8_uninstall_not_found_returns_success :
    mana_intr_uninstall 0 = (0, false) ∧
    mana_intr_uninstall 1 = (0, true) ∧
    mana_intr_uninstall (-2) = (-2, false) := by
  refine ⟨by decide, by decide, by decide⟩

/-! ## mana_dev_start (mana.c lines 108-153), claim C1 -/

/-- The burst entry points a DPDK eth device publishes: either the
"removed" stubs (mana_tx_burst_removed / mana_rx_burst_removed) or the
live mana_tx_burst / mana_rx_burst implementations. -/
inductive BurstPtr
  | removed
  | live
deriving DecidableEq

/-- The slice of device state mana_dev_start and mana_dev_stop act on:
the two published burst pointers, whether the device-wide MR btree is
allocated, and whether the tx/rx queues have been started. -/
structure DevState where
  tx_pkt_burst : BurstPtr
  rx_pkt_burst : BurstPtr
  mr_btree : Bool
  tx_started : Bool
  rx_started : Bool
deriving DecidableEq

/-- Return values mana_dev_start receives from its three fallible callees
(mana_mr_btree_init, mana_start_tx_queues, mana_start_rx_queues, all
defined outside mana.c); zero means success. -/
structure StartOracle where
  btree_ret : Int
  tx_ret : Int
  rx_ret : Int

/-- mana_dev_start: init the device MR btree, start tx queues, start rx
queues; on rx failure stop the tx queues (failed_rx label), on any queue
failure free the MR btree (failed_tx label) and return the error; only on
full success (after rte_wmb) publish the live burst pointers. -/
def mana_dev_start (o : StartOracle) (s : DevState) : Int × DevState :=
  if o.btree_ret ≠ 0 then (o.btree_ret, s)
  else
    let s1 := { s with mr_btree := true }
    if o.tx_ret ≠ 0 then (o.tx_ret, { s1 with mr_btree := false })
    else
      let s2 := { s1 with tx_started := true }
      if o.rx_ret ≠ 0 then
        (o.rx_ret, { s2 with tx_started := false, mr_btree := false })
      else
        (0, { s2 with rx_started := true,
                      tx_pkt_burst := .live, rx_pkt_burst := .live })

/-- C1: device start is all-or-nothing. Starting from the pre-start state
(burst pointers on the removed stubs, nothing allocated or started), if
starting the tx or the rx queues fails, mana_dev_start returns the first
error and the device state is exactly the pre-start state again:
already-started queues stopped, MR btree freed, and no burst entry point
published. -/
theorem mana_c1_dev_start_all_or_nothing (o : StartOracle) (s : DevState)
    (hpre : s.mr_btree = false ∧ s.tx_started = false ∧ s.rx_started = false)
    (hb : o.btree_ret = 0) (hf : o.tx_ret ≠ 0 ∨ o.rx_ret ≠ 0) :
    mana_dev_start o s = ((if o.tx_ret ≠ 0 then o.tx_ret else o.rx_ret), s) := by
  obtain ⟨h1, h2, h3⟩ := hpre
  obtain ⟨tx, rx, btree, t, r⟩ := s
  simp only at h1 h2 h3
  subst h1 h2 h3
  rcases hf with h | h <;>
    by_cases htx : o.tx_ret ≠ 0 <;>
    simp_all [mana_dev_start]

/-- Witness for C1: with the MR btree init succeeding and tx queue start
failing with -5, mana_dev_start returns -5 and the pre-start state intact. -/
theorem mana_c1_dev_start_all_or_nothing_witness :
    mana_dev_start ⟨0, -5, 0⟩ ⟨.removed, .removed, false, false, false⟩ =
      (-5, ⟨.removed, .removed, false, false, false⟩) := by
  have h := mana_c1_dev_start_all_or_nothing ⟨0, -5, 0⟩
    ⟨.removed, .removed, false, false, false⟩ (by decide) (by decide)
    (Or.inl (by decide))
  simpa using h

/-! ## mana_dev_stop and the removed burst stubs
(mana.c lines 155-181 and 551-567), claim C4 -/

/-- The externally visible actions mana_dev_stop performs, in program
order: assign the removed burst stubs, send MANA_MP_REQ_STOP_RXTX to the
secondary processes, issue rte_wmb, stop the tx queues, stop the rx
queues. -/
inductive StopAction
  | publish_stubs
  | mp_req_stop
  | wmb
  | stop_tx
  | stop_rx
deriving DecidableEq

/-- Return values mana_dev_stop receives from mana_stop_tx_queues and
mana_stop_rx_queues (defined outside mana.c). -/
structure StopOracle where
  tx_stop_ret : Int
  rx_stop_ret : Int

/-- mana_dev_stop: publish the removed stubs, request the secondaries to
stop, fence, then stop tx queues and (if that succeeded) rx queues,
returning the first nonzero error. Also records the action trace. -/
def mana_dev_stop (o : StopOracle) (s : DevState) :
    Int × DevState × List StopAction :=
  let s1 := { s with tx_pkt_burst := .removed, rx_pkt_burst := .removed }
  let t1 : List StopAction := [.publish_stubs, .mp_req_stop, .wmb]
  if o.tx_stop_ret ≠ 0 then (o.tx_stop_ret, s1, t1 ++ [.stop_tx])
  else
    let s2 := { s1 with tx_started := false }
    if o.rx_stop_ret ≠ 0 then (o.rx_stop_ret, s2, t1 ++ [.stop_tx, .stop_rx])
    else (0, { s2 with rx_started := false }, t1 ++ [.stop_tx, .stop_rx])

/-- mana_rx_burst_removed (mana.c lines 551-558): issues rte_mb and
reports 0 packets received, for any queue and any burst request. -/
def mana_rx_burst_removed (dpdk_rxq : Unit) (pkts : List Nat) (pkts_n : Nat) : Nat := 0

/-- mana_tx_burst_removed (mana.c lines 560-567): issues rte_mb and
reports 0 packets sent, for any queue and any burst request. -/
def mana_tx_burst_removed (dpdk_txq : Unit) (pkts : List Nat) (pkts_n : Nat) : Nat := 0

/-- C4: mana_dev_stop publishes the removed burst stubs as its first
action, before the rte_wmb fence and before any queue deactivation (every
action after the fence is a queue stop, and the trace opens with the
publish, the secondary-stop request, then the fence); the resulting state
has both burst pointers on the removed stubs; and the stub functions
return 0 processed packets for every input. -/
theorem mana_c4_stop_publishes_stubs_first (o : StopOracle) (s : DevState) :
    (mana_dev_stop o s).2.1.tx_pkt_burst = .removed ∧
    (mana_dev_stop o s).2.1.rx_pkt_burst = .removed ∧
    List.take 3 (mana_dev_stop o s).2.2 = [.publish_stubs, .mp_req_stop, .wmb] ∧
    (∀ a ∈ List.drop 3 (mana_dev_stop o s).2.2, a = .stop_tx ∨ a = .stop_rx) ∧
    (∀ q pkts n, mana_rx_burst_removed q pkts n = 0 ∧
                 mana_tx_burst_removed q pkts n = 0) := by
  by_cases htx : o.tx_stop_ret ≠ 0 <;>
    by_cases hrx : o.rx_stop_ret ≠ 0 <;>
    simp_all [mana_dev_stop, mana_rx_burst_removed, mana_tx_burst_removed]

/-! ## mana_rss_hash_update (mana.c lines 322-360), claim C9 -/

/-- Bitmask of RSS hash functions the device supports
(MANA_ETH_RSS_SUPPORT: IPV4, NONFRAG_IPV4_TCP, NONFRAG_IPV4_UDP, IPV6,
NONFRAG_IPV6_TCP, NONFRAG_IPV6_UDP; the numeric values come from
rte_ethdev.h and mana.h, which are outside src/ — no theorem below
depends on the exact value). -/
def MANA_ETH_RSS_SUPPORT : Nat := 2^2 ||| 2^4 ||| 2^5 ||| 2^8 ||| 2^10 ||| 2^11

/-- Toeplitz hash key size in bytes (TOEPLITZ_HASH_KEY_SIZE_IN_BYTES,
from mana.h which is outside src/; no theorem depends on the value). -/
def TOEPLITZ_HASH_KEY_SIZE_IN_BYTES : Nat := 40

/-- All-ones mask of a C uint64_t, used to model the complement in
`rss_hf & ~MANA_ETH_RSS_SUPPORT`. -/
def UINT64_MASK : Nat := 2 ^ 64 - 1

/-- struct rte_eth_rss_conf: the key pointer (none = NULL) with its data,
the declared key length, and the requested hash-function bits. -/
structure RteEthRssConf where
  rss_key : Option (List Nat)
  rss_key_len : Nat
  rss_hf : Nat
deriving DecidableEq

/-- mana_rss_hash_update: reject when the device is started, when rss_hf
has bits outside MANA_ETH_RSS_SUPPORT, or when a key is supplied (non-NULL
pointer and nonzero length) whose length is not the Toeplitz key size;
otherwise store the key (if supplied; `alloc_ok` tells whether the
rte_zmalloc for the copy succeeds) and the hash bits in priv->rss_conf. -/
def mana_rss_hash_update (dev_started : Bool) (alloc_ok : Bool)
    (priv_rss_conf : RteEthRssConf) (rss_conf : RteEthRssConf) :
    Int × RteEthRssConf :=
  if dev_started then (-ENODEV, priv_rss_conf)
  else if rss_conf.rss_hf &&& (UINT64_MASK ^^^ MANA_ETH_RSS_SUPPORT) ≠ 0 then
    (-EINVAL, priv_rss_conf)
  else if rss_conf.rss_key.isSome ∧ rss_conf.rss_key_len ≠ 0 then
    if rss_conf.rss_key_len ≠ TOEPLITZ_HASH_KEY_SIZE_IN_BYTES then
      (-EINVAL, priv_rss_conf)
    else
      let p1 := { priv_rss_conf with rss_key_len := rss_conf.rss_key_len }
      if ¬ alloc_ok then (-ENOMEM, { p1 with rss_key := none })
      else
        let p2 := { p1 with
          rss_key := some ((rss_conf.rss_key.getD []).take rss_conf.rss_key_len) }
        (0, { p2 with rss_hf := rss_conf.rss_hf })
  else (0, { priv_rss_conf with rss_hf := rss_conf.rss_hf })

/-- C9: mana_rss_hash_update fails and leaves the stored RSS configuration
untouched whenever the device is already started, or the requested hash
bits fall outside the supported set, or a key is supplied (non-NULL, with
nonzero length) whose length differs from the Toeplitz key size. -/
theorem mana_c9_rss_update_guards (dev_started alloc_ok : Bool)
    (priv_rss_conf rss_conf : RteEthRssConf)
    (h : dev_started = true ∨
         rss_conf.rss_hf &&& (UINT64_MASK ^^^ MANA_ETH_RSS_SUPPORT) ≠ 0 ∨
         (rss_conf.rss_key.isSome ∧ rss_conf.rss_key_len ≠ 0 ∧
          rss_conf.rss_key_len ≠ TOEPLITZ_HASH_KEY_SIZE_IN_BYTES)) :
    (mana_rss_hash_update dev_started alloc_ok priv_rss_conf rss_conf).1 < 0 ∧
    (mana_rss_hash_update dev_started alloc_ok priv_rss_conf rss_conf).2
      = priv_rss_conf := by
  rcases h with h | h | ⟨h1, h2, h3⟩
  · simp [mana_rss_hash_update, h, ENODEV]
  · by_cases hs : dev_started = true <;>
      simp_all [mana_rss_hash_update, ENODEV, EINVAL]
  · by_cases hs : dev_started = true
    · simp [mana_rss_hash_update, hs, ENODEV]
    · by_cases hh : rss_conf.rss_hf &&& (UINT64_MASK ^^^ MANA_ETH_RSS_SUPPORT) ≠ 0 <;>
        simp_all [mana_rss_hash_update, ENODEV, EINVAL]

/-- Witness for C9: a 4-byte key (wrong Toeplitz length) is rejected with
a negative error and the stored configuration is unchanged. -/
theorem mana_c9_rss_update_guards_witness :
    (mana_rss_hash_update false true ⟨none, 0, 0⟩ ⟨some [1, 2, 3, 4], 4, 0⟩).1 < 0 ∧
    (mana_rss_hash_update false true ⟨none, 0, 0⟩ ⟨some [1, 2, 3, 4], 4, 0⟩).2
      = ⟨none, 0, 0⟩ :=
  mana_c9_rss_update_guards false true ⟨none, 0, 0⟩ ⟨some [1, 2, 3, 4], 4, 0⟩
    (Or.inr (Or.inr (by decide)))

/-! ## mana_dev_info_get (mana.c lines 204-283), claim C10 -/

/-- Device limits mana_dev_info_get reads from struct mana_priv. -/
structure InfoPriv where
  max_rx_queues : Nat
  max_tx_queues : Nat
  max_rx_desc : Nat
  max_tx_desc : Nat
  max_send_sge : Nat
  max_recv_sge : Nat
deriving DecidableEq

/-- struct rte_eth_desc_lim. -/
structure RteEthDescLim where
  nb_max : Nat
  nb_min : Nat
  nb_align : Nat
  nb_seg_max : Nat
  nb_mtu_seg_max : Nat
deriving DecidableEq

/-- The fields of struct rte_eth_dev_info that mana_dev_info_get touches
(the threshold/port-conf defaults are collapsed to opaque numeric tags). -/
structure RteEthDevInfo where
  max_mtu : Nat
  min_rx_bufsize : Nat
  max_rx_pktlen : Nat
  max_rx_queues : Nat
  max_tx_queues : Nat
  max_mac_addrs : Nat
  max_hash_mac_addrs : Nat
  max_vfs : Nat
  rx_offload_capa : Nat
  tx_offload_capa : Nat
  reta_size : Nat
  hash_key_size : Nat
  flow_type_rss_offloads : Nat
  default_rxconf : Nat
  default_txconf : Nat
  rx_desc_lim : RteEthDescLim
  tx_desc_lim : RteEthDescLim
  speed_capa : Nat
  default_rxportconf_burst_size : Nat
  default_rxportconf_ring_size : Nat
  default_rxportconf_nb_queues : Nat
  default_txportconf_burst_size : Nat
  default_txportconf_ring_size : Nat
  default_txportconf_nb_queues : Nat
deriving DecidableEq

/-- Constants from mana.h and rte_ethdev.h (headers outside src/); only
their identity matters to the theorems below, never the value. -/
def RTE_ETHER_MTU : Nat := 1500
def MIN_RX_BUF_SIZE : Nat := 1024
def MAX_FRAME_SIZE : Nat := 4096
def MANA_MAX_MAC_ADDR : Nat := 1
def MANA_DEV_RX_OFFLOAD_SUPPORT : Nat := 3
def MANA_DEV_TX_OFFLOAD_SUPPORT : Nat := 7
def INDIRECTION_TABLE_NUM_ELEMENTS : Nat := 64
def MIN_BUFFERS_PER_QUEUE : Nat := 64
def RTE_ETH_LINK_SPEED_100G : Nat := 2 ^ 14
def MAX_RECEIVE_BUFFERS_PER_QUEUE : Nat := 256
def MAX_SEND_BUFFERS_PER_QUEUE : Nat := 256
def DEFAULT_RXCONF_TAG : Nat := 101
def DEFAULT_TXCONF_TAG : Nat := 102

/-- Field identifiers for the assignment log of mana_dev_info_get; only
the two nb_mtu_seg_max stores are singled out, every other store is
recorded as `other`. -/
inductive InfoField
  | rx_nb_mtu_seg_max
  | tx_nb_mtu_seg_max
  | other
deriving DecidableEq

/-- mana_dev_info_get, from mana.c lines 210-280: the net effect of its
straight-line stores on the caller structure, paired with the log of the
stores in program order (lines 210-280 assign every listed field once,
except the slip at line 267: the second store that should set
tx_desc_lim.nb_mtu_seg_max targets rx_desc_lim.nb_mtu_seg_max again, so
rx_desc_lim.nb_mtu_seg_max is stored twice with the same value and
tx_desc_lim.nb_mtu_seg_max is never stored). -/
def mana_dev_info_get (priv : InfoPriv) (dev_info : RteEthDevInfo) :
    RteEthDevInfo × List InfoField :=
  ({ dev_info with
      max_mtu := RTE_ETHER_MTU
      min_rx_bufsize := MIN_RX_BUF_SIZE
      max_rx_pktlen := MAX_FRAME_SIZE
      max_rx_queues := priv.max_rx_queues
      max_tx_queues := priv.max_tx_queues
      max_mac_addrs := MANA_MAX_MAC_ADDR
      max_hash_mac_addrs := 0
      max_vfs := 1
      rx_offload_capa := MANA_DEV_RX_OFFLOAD_SUPPORT
      tx_offload_capa := MANA_DEV_TX_OFFLOAD_SUPPORT
      reta_size := INDIRECTION_TABLE_NUM_ELEMENTS
      hash_key_size := TOEPLITZ_HASH_KEY_SIZE_IN_BYTES
      flow_type_rss_offloads := MANA_ETH_RSS_SUPPORT
      default_rxconf := DEFAULT_RXCONF_TAG
      default_txconf := DEFAULT_TXCONF_TAG
      rx_desc_lim := { nb_max := priv.max_rx_desc
                       nb_min := MIN_BUFFERS_PER_QUEUE
                       nb_align := MIN_BUFFERS_PER_QUEUE
                       nb_seg_max := priv.max_recv_sge
                       nb_mtu_seg_max := priv.max_recv_sge }
      tx_desc_lim := { dev_info.tx_desc_lim with
                       nb_max := priv.max_tx_desc
                       nb_min := MIN_BUFFERS_PER_QUEUE
                       nb_align := MIN_BUFFERS_PER_QUEUE
                       nb_seg_max := priv.max_send_sge }
      speed_capa := RTE_ETH_LINK_SPEED_100G
      default_rxportconf_burst_size := 1
      default_rxportconf_ring_size := MAX_RECEIVE_BUFFERS_PER_QUEUE
      default_rxportconf_nb_queues := 1
      default_txportconf_burst_size := 1
      default_txportconf_ring_size := MAX_SEND_BUFFERS_PER_QUEUE
      default_txportconf_nb_queues := 1 },
   [.other, .other, .other, .other, .other, .other, .other, .other,
    .other, .other, .other, .other, .other, .other, .other,
    .other, .other, .other, .other, .rx_nb_mtu_seg_max,
    .other, .other, .other, .other, .rx_nb_mtu_seg_max,
    .other, .other, .other, .other, .other, .other, .other])

/-- C10: mana_dev_info_get never stores to tx_desc_lim.nb_mtu_seg_max (the
output keeps the caller's value, and the store log holds no store to it),
stores to rx_desc_lim.nb_mtu_seg_max twice leaving it at max_recv_sge, and
every other field of the output is independent of the caller's input
(it is set from the device context or a constant). -/
theorem mana_c10_info_tx_mtu_seg_max_untouched (priv : InfoPriv)
    (dev_info other_info : RteEthDevInfo) :
    (mana_dev_info_get priv dev_info).1.tx_desc_lim.nb_mtu_seg_max
      = dev_info.tx_desc_lim.nb_mtu_seg_max ∧
    List.count InfoField.tx_nb_mtu_seg_max (mana_dev_info_get priv dev_info).2 = 0 ∧
    (mana_dev_info_get priv dev_info).1.rx_desc_lim.nb_mtu_seg_max
      = priv.max_recv_sge ∧
    List.count InfoField.rx_nb_mtu_seg_max (mana_dev_info_get priv dev_info).2 = 2 ∧
    (mana_dev_info_get priv dev_info).1 =
      { (mana_dev_info_get priv other_info).1 with
          tx_desc_lim := { (mana_dev_info_get priv other_info).1.tx_desc_lim with
            nb_mtu_seg_max := dev_info.tx_desc_lim.nb_mtu_seg_max } } := by
  refine ⟨rfl, rfl, rfl, rfl, ?_⟩
  simp [mana_dev_info_get]

/-! ## mana_dev_tx_queue_setup / mana_dev_rx_queue_setup
(mana.c lines 383-433 and 446-499), claim C6 -/

/-- Tags for the heap blocks a queue-setup call can allocate: the queue
structure, its descriptor ring, and its per-queue MR btree. -/
inductive AllocTag
  | txq_blk
  | tx_ring_blk
  | tx_btree_blk
  | rxq_blk
  | rx_ring_blk
  | rx_btree_blk
deriving DecidableEq

/-- Outcomes of the three fallible allocations inside a queue-setup call:
the rte_zmalloc_socket of the queue struct, the rte_malloc_socket /
rte_zmalloc_socket of the descriptor ring, and mana_mr_btree_init
(btree_ret is the int it returns; 0 means success). -/
structure QSetupOracle where
  q_ok : Bool
  ring_ok : Bool
  btree_ret : Int

/-- struct mana_txq, restricted to the fields mana.c touches (desc_ring
is the capacity the ring was allocated with, none when NULL). -/
structure ManaTxq where
  socket : Nat
  desc_ring : Option Nat
  mr_btree : Bool
  desc_ring_head : Nat
  desc_ring_tail : Nat
  num_desc : Nat
deriving DecidableEq

/-- struct mana_rxq, restricted to the fields mana.c touches. -/
structure ManaRxq where
  socket : Nat
  desc_ring : Option Nat
  mr_btree : Bool
  desc_ring_head : Nat
  desc_ring_tail : Nat
  num_desc : Nat
  mp : Nat
deriving DecidableEq

/-- mana_dev_tx_queue_setup: allocate the txq struct (zeroed), the
descriptor ring sized to nb_desc, init the per-queue MR btree; on any
failure run the fail label (rte_free the ring, rte_free the txq) and
return the error without touching the queue table; on success set
head/tail to 0 and install the queue at queue_idx. `live` is the multiset
of heap blocks alive before the call. -/
def mana_dev_tx_queue_setup (o : QSetupOracle) (queue_idx nb_desc socket_id : Nat)
    (tx_queues : Nat → Option ManaTxq) (live : Multiset AllocTag) :
    Int × (Nat → Option ManaTxq) × Multiset AllocTag :=
  if ¬ o.q_ok then (-ENOMEM, tx_queues, live)
  else
    let live1 : Multiset AllocTag := .txq_blk ::ₘ live
    if ¬ o.ring_ok then
      (-ENOMEM, tx_queues, live1.erase .txq_blk)
    else
      let live2 : Multiset AllocTag := .tx_ring_blk ::ₘ live1
      if o.btree_ret ≠ 0 then
        (o.btree_ret, tx_queues, (live2.erase .tx_ring_blk).erase .txq_blk)
      else
        let live3 : Multiset AllocTag := .tx_btree_blk ::ₘ live2
        let txq : ManaTxq :=
          { socket := socket_id, desc_ring := some nb_desc, mr_btree := true,
            desc_ring_head := 0, desc_ring_tail := 0, num_desc := nb_desc }
        (0, fun i => if i = queue_idx then some txq else tx_queues i, live3)

/-- mana_dev_rx_queue_setup: same structure as the tx path (ring zeroed
via rte_zmalloc_socket, head/tail zeroed before the btree init, mempool
pointer stored on success). -/
def mana_dev_rx_queue_setup (o : QSetupOracle) (queue_idx nb_desc socket_id mp : Nat)
    (rx_queues : Nat → Option ManaRxq) (live : Multiset AllocTag) :
    Int × (Nat → Option ManaRxq) × Multiset AllocTag :=
  if ¬ o.q_ok then (-ENOMEM, rx_queues, live)
  else
    let live1 : Multiset AllocTag := .rxq_blk ::ₘ live
    if ¬ o.ring_ok then
      (-ENOMEM, rx_queues, live1.erase .rxq_blk)
    else
      let live2 : Multiset AllocTag := .rx_ring_blk ::ₘ live1
      if o.btree_ret ≠ 0 then
        (o.btree_ret, rx_queues, (live2.erase .rx_ring_blk).erase .rxq_blk)
      else
        let live3 : Multiset AllocTag := .rx_btree_blk ::ₘ live2
        let rxq : ManaRxq :=
          { socket := socket_id, desc_ring := some nb_desc, mr_btree := true,
            desc_ring_head := 0, desc_ring_tail := 0, num_desc := nb_desc,
            mp := mp }
        (0, fun i => if i = queue_idx then some rxq else rx_queues i, live3)

/-- C6: for both queue-setup entry points, when any allocation fails the
call returns a negative error, every block it allocated has been freed
(the live-heap multiset is exactly what it was before the call), and the
queue table is untouched; on success the new queue has head = tail = 0
and a descriptor ring of capacity nb_desc, and exactly the three blocks
now owned by the installed queue were added to the heap. The hypothesis
`hb` states that mana_mr_btree_init reports failures as negative values. -/
theorem mana_c6_queue_setup_rollback (o : QSetupOracle)
    (queue_idx nb_desc socket_id mp : Nat)
    (tx_queues : Nat → Option ManaTxq) (rx_queues : Nat → Option ManaRxq)
    (live : Multiset AllocTag) (hb : o.btree_ret ≤ 0) :
    ((mana_dev_tx_queue_setup o queue_idx nb_desc socket_id tx_queues live).1 ≠ 0 →
      (mana_dev_tx_queue_setup o queue_idx nb_desc socket_id tx_queues live).1 < 0 ∧
      (mana_dev_tx_queue_setup o queue_idx nb_desc socket_id tx_queues live).2.1
        = tx_queues ∧
      (mana_dev_tx_queue_setup o queue_idx nb_desc socket_id tx_queues live).2.2
        = live) ∧
    ((mana_dev_tx_queue_setup o queue_idx nb_desc socket_id tx_queues live).1 = 0 →
      (mana_dev_tx_queue_setup o queue_idx nb_desc socket_id tx_queues live).2.1
          queue_idx
        = some ⟨socket_id, some nb_desc, true, 0, 0, nb_desc⟩ ∧
      (mana_dev_tx_queue_setup o queue_idx nb_desc socket_id tx_queues live).2.2
        = .tx_btree_blk ::ₘ .tx_ring_blk ::ₘ .txq_blk ::ₘ live) ∧
    ((mana_dev_rx_queue_setup o queue_idx nb_desc socket_id mp rx_queues live).1 ≠ 0 →
      (mana_dev_rx_queue_setup o queue_idx nb_desc socket_id mp rx_queues live).1 < 0 ∧
      (mana_dev_rx_queue_setup o queue_idx nb_desc socket_id mp rx_queues live).2.1
        = rx_queues ∧
      (mana_dev_rx_queue_setup o queue_idx nb_desc socket_id mp rx_queues live).2.2
        = live) ∧
    ((mana_dev_rx_queue_setup o queue_idx nb_desc socket_id mp rx_queues live).1 = 0 →
      (mana_dev_rx_queue_setup o queue_idx nb_desc socket_id mp rx_queues live).2.1
          queue_idx
        = some ⟨socket_id, some nb_desc, true, 0, 0, nb_desc, mp⟩ ∧
      (mana_dev_rx_queue_setup o queue_idx nb_desc socket_id mp rx_queues live).2.2
        = .rx_btree_blk ::ₘ .rx_ring_blk ::ₘ .rxq_blk ::ₘ live) := by
  by_cases hq : o.q_ok <;> by_cases hr : o.ring_ok <;>
    by_cases hbt : o.btree_ret = 0 <;>
    simp_all [mana_dev_tx_queue_setup, mana_dev_rx_queue_setup, ENOMEM,
      Multiset.erase_cons_head] <;>
    omega

/-- Witness for C6: a failing MR btree init (reporting -7) rolls both
setup calls back completely: heap and queue tables as before, error
returned. -/
theorem mana_c6_queue_setup_rollback_witness :
    (mana_dev_tx_queue_setup ⟨true, true, -7⟩ 0 128 0 (fun _ => none) 0).1 < 0 ∧
    (mana_dev_tx_queue_setup ⟨true, true, -7⟩ 0 128 0 (fun _ => none) 0).2.2 = 0 ∧
    (mana_dev_rx_queue_setup ⟨true, true, -7⟩ 0 128 0 3 (fun _ => none) 0).2.2 = 0 := by
  have h := mana_c6_queue_setup_rollback ⟨true, true, -7⟩ 0 128 0 3
    (fun _ => none) (fun _ => none) 0 (by norm_num)
  have htx := h.1 (by norm_num [mana_dev_tx_queue_setup])
  have hrx := h.2.2.1 (by norm_num [mana_dev_rx_queue_setup])
  exact ⟨htx.1, htx.2.2, hrx.2.2⟩

/-! ## mana_parse_args / mana_pci_probe_mac / mana_pci_probe
(mana.c lines 569-634, 1151-1250), claim C7 -/

/-- A hardware (MAC) address, abstracted to its identity. -/
abbrev MacAddr := Nat

/-- MAX_NUM_ADDRESS (mana.c line 576): at most 8 "mac" devargs. -/
def MAX_NUM_ADDRESS : Nat := 8

/-- mana_arg_parse_callback: one "mac" kvarg value (none when
rte_ether_unformat_addr cannot parse it); the conf accumulator is the
mac_array prefix filled so far (conf.index = its length). Returns the
callback's int and the updated conf. -/
def mana_arg_parse_callback (val : Option MacAddr) (conf : List MacAddr) :
    Int × List MacAddr :=
  if MAX_NUM_ADDRESS ≤ conf.length then (1, conf)
  else match val with
    | none => (-1, conf)
    | some a => (0, conf ++ [a])

/-- rte_kvargs_process over the "mac" key (EAL helper outside src/,
modelled from its contract): run the handler on each matching value and
abort with -1 as soon as the handler reports a negative value. -/
def rte_kvargs_process_mac : List (Option MacAddr) → List MacAddr →
    Int × List MacAddr
  | [], conf => (0, conf)
  | v :: rest, conf =>
    let r := mana_arg_parse_callback v conf
    if r.1 < 0 then (-1, r.2) else rte_kvargs_process_mac rest r.2

/-- mana_parse_args: count the "mac" kvargs (the list length), reject more
than MAX_NUM_ADDRESS with -EINVAL before processing, otherwise process
them into the conf mac array. -/
def mana_parse_args (args : List (Option MacAddr)) : Int × List MacAddr :=
  if MAX_NUM_ADDRESS < args.length then (-EINVAL, [])
  else rte_kvargs_process_mac args []

/-- The port-skipping condition of mana_pci_probe_mac (mana.c line 1197):
a target address is given and the port's address differs from it. -/
def mac_mismatch (mac_addr : Option MacAddr) (addr : MacAddr) : Bool :=
  match mac_addr with
  | some f => addr != f
  | none => false

/-- One port of an IB device as the probe loop sees it: the value
get_port_mac reports (`mac` = the address when it returns 0, none
otherwise, with `mac_ret` the nonzero value it returned), and the int
mana_probe_port would report if this port is probed. get_port_mac and
mana_probe_port read external directory/verbs state, so their outcomes
are oracle data here. -/
structure IbPort where
  mac : Option MacAddr
  mac_ret : Int
  probe_ret : Int

/-- One entry of the ibv_get_device_list result: the PCI address
mana_ibv_device_to_pci_addr extracts (none when its uevent scan finds no
PCI_SLOT_NAME) and the device's ports (port numbers start at 1). -/
structure IbDevice where
  pci : Option Nat
  ports : List IbPort

/-- The inner port loop of mana_pci_probe_mac (mana.c lines 1190-1205):
walk the ports, skip a port when get_port_mac fails or when a target MAC
is given and the port's address differs, otherwise probe it. Threads the
C variable `ret` and collects (port number, address) of each probed port. -/
def mana_probe_port_loop (mac_addr : Option MacAddr) :
    List IbPort → Nat → Int → Int × List (Nat × MacAddr)
  | [], _, ret => (ret, [])
  | p :: rest, port, ret =>
    match p.mac with
    | none => mana_probe_port_loop mac_addr rest (port + 1) p.mac_ret
    | some addr =>
      if mac_mismatch mac_addr addr then
        mana_probe_port_loop mac_addr rest (port + 1) 0
      else
        let r := mana_probe_port_loop mac_addr rest (port + 1) p.probe_ret
        (r.1, (port, addr) :: r.2)

/-- The device loop of mana_pci_probe_mac (mana.c lines 1163-1206): skip
devices whose uevent has no PCI address or whose PCI address differs from
the probed device, open the rest and walk their ports (ibv_open_device
and ibv_query_device_ex modelled as succeeding; the query's return value
resets `ret` to 0 before the port loop). Probed ports are tagged with the
index of their device in ibv_list. -/
def mana_probe_dev_loop (pci : Nat) (mac_addr : Option MacAddr) :
    List IbDevice → Nat → Int → Int × List (Nat × Nat × MacAddr)
  | [], _, ret => (ret, [])
  | d :: rest, idx, ret =>
    match d.pci with
    | none => mana_probe_dev_loop pci mac_addr rest (idx + 1) ret
    | some dp =>
      if dp = pci then
        let r1 := mana_probe_port_loop mac_addr d.ports 1 0
        let r2 := mana_probe_dev_loop pci mac_addr rest (idx + 1) r1.1
        (r2.1, (r1.2.map fun pr => (idx, pr)) ++ r2.2)
      else mana_probe_dev_loop pci mac_addr rest (idx + 1) ret

/-- mana_pci_probe_mac: walk the whole IB device list for ports of the
probed PCI device matching mac_addr (all ports when mac_addr is none). -/
def mana_pci_probe_mac (devs : List IbDevice) (pci : Nat)
    (mac_addr : Option MacAddr) : Int × List (Nat × Nat × MacAddr) :=
  mana_probe_dev_loop pci mac_addr devs 0 0

/-- The per-target loop of mana_pci_probe (mana.c lines 1243-1247): probe
each parsed MAC in turn, returning the first nonzero error (ports probed
before the failing call stay probed). -/
def mana_probe_mac_loop (devs : List IbDevice) (pci : Nat) :
    List MacAddr → Int × List (Nat × Nat × MacAddr)
  | [] => (0, [])
  | m :: rest =>
    let r := mana_pci_probe_mac devs pci (some m)
    if r.1 ≠ 0 then (r.1, r.2)
    else
      let r2 := mana_probe_mac_loop devs pci rest
      (r2.1, r.2 ++ r2.2)

/-- mana_pci_probe: parse the devargs when present (failing fast on a
parse error), then probe every discovered port when no target MAC was
given, or probe per target MAC otherwise (mana_init_once, claim C3, is
modelled separately and succeeds here). -/
def mana_pci_probe (devs : List IbDevice) (pci : Nat)
    (devargs : Option (List (Option MacAddr))) :
    Int × List (Nat × Nat × MacAddr) :=
  match devargs with
  | none => mana_pci_probe_mac devs pci none
  | some args =>
    let pr := mana_parse_args args
    if pr.1 ≠ 0 then (pr.1, [])
    else if pr.2.length = 0 then mana_pci_probe_mac devs pci none
    else mana_probe_mac_loop devs pci pr.2

/-- The discovered ports of one device: ports whose address get_port_mac
reports successfully, numbered from `port`. -/
def discovered_in_ports : List IbPort → Nat → List (Nat × MacAddr)
  | [], _ => []
  | p :: rest, port =>
    match p.mac with
    | none => discovered_in_ports rest (port + 1)
    | some addr => (port, addr) :: discovered_in_ports rest (port + 1)

/-- All discovered ports of the devices whose PCI address matches the
probed device, tagged with the device's index from `idx`. -/
def discovered_ports (pci : Nat) : List IbDevice → Nat → List (Nat × Nat × MacAddr)
  | [], _ => []
  | d :: rest, idx =>
    (if d.pci = some pci then
      (discovered_in_ports d.ports 1).map fun pr => (idx, pr)
    else []) ++ discovered_ports pci rest (idx + 1)

/-- With no target MAC the port loop probes exactly the discovered ports. -/
theorem mana_probe_port_loop_none (ports : List IbPort) (port : Nat) (ret : Int) :
    (mana_probe_port_loop none ports port ret).2 = discovered_in_ports ports port := by
  induction ports generalizing port ret with
  | nil => rfl
  | cons p rest ih =>
    cases h : p.mac <;>
      simp [mana_probe_port_loop, discovered_in_ports, mac_mismatch, h, ih]

/-- With no target MAC the device loop probes exactly the discovered
ports of the matching devices. -/
theorem mana_probe_dev_loop_none (pci : Nat) (devs : List IbDevice)
    (idx : Nat) (ret : Int) :
    (mana_probe_dev_loop pci none devs idx ret).2 = discovered_ports pci devs idx := by
  induction devs generalizing idx ret with
  | nil => rfl
  | cons d rest ih =>
    cases h : d.pci with
    | none =>
      simp [mana_probe_dev_loop, discovered_ports, h, ih]
    | some dp =>
      by_cases hdp : dp = pci <;>
        simp [mana_probe_dev_loop, discovered_ports, h, hdp, ih,
          mana_probe_port_loop_none]

/-- With a target MAC the port loop probes only ports carrying exactly
that address. -/
theorem mana_probe_port_loop_filter (f : MacAddr) (ports : List IbPort)
    (port : Nat) (ret : Int) :
    ∀ x ∈ (mana_probe_port_loop (some f) ports port ret).2, x.2 = f := by
  induction ports generalizing port ret with
  | nil => simp [mana_probe_port_loop]
  | cons p rest ih =>
    intro x hx
    rcases h : p.mac with - | addr
    · simp only [mana_probe_port_loop, h] at hx
      exact ih _ _ x hx
    · by_cases he : addr = f
      · subst he
        simp only [mana_probe_port_loop, h, mac_mismatch, bne_self_eq_false,
          Bool.false_eq_true, if_false, List.mem_cons] at hx
        rcases hx with h1 | h1
        · simp [h1]
        · exact ih _ _ x h1
      · simp only [mana_probe_port_loop, h, mac_mismatch, bne_iff_ne, ne_eq,
          he, not_false_eq_true, if_true] at hx
        exact ih _ _ x hx

/-- With a target MAC the device loop probes only ports carrying exactly
that address. -/
theorem mana_probe_dev_loop_filter (pci : Nat) (f : MacAddr)
    (devs : List IbDevice) (idx : Nat) (ret : Int) :
    ∀ x ∈ (mana_probe_dev_loop pci (some f) devs idx ret).2, x.2.2 = f := by
  induction devs generalizing idx ret with
  | nil => simp [mana_probe_dev_loop]
  | cons d rest ih =>
    intro x hx
    rcases h : d.pci with - | dp
    · simp only [mana_probe_dev_loop, h] at hx
      exact ih _ _ x hx
    · by_cases hdp : dp = pci
      · simp only [mana_probe_dev_loop, h, hdp, if_true, List.mem_append,
          List.mem_map] at hx
        rcases hx with ⟨pr, hpr, rfl⟩ | h1
        · exact mana_probe_port_loop_filter f d.ports 1 0 pr hpr
        · exact ih _ _ x h1
      · simp only [mana_probe_dev_loop, h, hdp, if_false] at hx
        exact ih _ _ x hx

/-- Ports probed by mana_pci_probe_mac with a target MAC carry it. -/
theorem mana_pci_probe_mac_filter (devs : List IbDevice) (pci : Nat)
    (m : MacAddr) :
    ∀ x ∈ (mana_pci_probe_mac devs pci (some m)).2, x.2.2 = m :=
  mana_probe_dev_loop_filter pci m devs 0 0

/-- Ports probed by the per-target loop carry one of the targets. -/
theorem mana_probe_mac_loop_filter (devs : List IbDevice) (pci : Nat)
    (ms : List MacAddr) :
    ∀ x ∈ (mana_probe_mac_loop devs pci ms).2, ∃ m ∈ ms, x.2.2 = m := by
  induction ms with
  | nil => simp [mana_probe_mac_loop]
  | cons m rest ih =>
    intro x hx
    simp only [mana_probe_mac_loop] at hx
    split at hx
    · exact ⟨m, List.mem_cons_self m rest,
        mana_pci_probe_mac_filter devs pci m x hx⟩
    · simp only [List.mem_append] at hx
      rcases hx with h1 | h1
      · exact ⟨m, List.mem_cons_self m rest,
          mana_pci_probe_mac_filter devs pci m x h1⟩
      · obtain ⟨m2, hm2, he⟩ := ih x h1
        exact ⟨m2, List.mem_cons_of_mem m hm2, he⟩

/-- C7: the probe path accepts at most 8 target MACs — more than 8 "mac"
devargs fail with -EINVAL and no port is probed; with no devargs, or with
devargs parsing to an empty target list, every discovered port of the
matching PCI device is probed; and with a nonempty target list every
probed port's hardware address equals one of the parsed targets. -/
theorem mana_c7_probe_mac_filtering (devs : List IbDevice) (pci : Nat) :
    (∀ args : List (Option MacAddr), 8 < args.length →
      mana_pci_probe devs pci (some args) = (-EINVAL, [])) ∧
    ((mana_pci_probe devs pci none).2 = discovered_ports pci devs 0) ∧
    (∀ args, mana_parse_args args = (0, []) →
      (mana_pci_probe devs pci (some args)).2 = discovered_ports pci devs 0) ∧
    (∀ args conf, mana_parse_args args = (0, conf) → conf ≠ [] →
      ∀ x ∈ (mana_pci_probe devs pci (some args)).2,
        ∃ m ∈ conf, x.2.2 = m) := by
  refine ⟨?_, ?_, ?_, ?_⟩
  · intro args hlen
    have h8 : MAX_NUM_ADDRESS < args.length := by
      simpa [MAX_NUM_ADDRESS] using hlen
    norm_num [mana_pci_probe, mana_parse_args, h8, EINVAL]
  · exact mana_probe_dev_loop_none pci devs 0 0
  · intro args hargs
    simp [mana_pci_probe, hargs, mana_pci_probe_mac,
      mana_probe_dev_loop_none pci devs 0 0]
  · intro args conf hargs hne x hx
    have hx2 : x ∈ (mana_probe_mac_loop devs pci conf).2 := by
      simpa [mana_pci_probe, hargs, List.length_eq_zero, hne] using hx
    exact mana_probe_mac_loop_filter devs pci conf x hx2

/-- Witness for C7: with targets parsed from devargs "mac=7,mac=9", the
port probed on the only matching device carries address 7, one of the
targets; the parse hypotheses are discharged at this concrete input. -/
theorem mana_c7_probe_mac_filtering_witness :
    ∃ m ∈ [7, 9], (((0 : Nat), (1 : Nat), (7 : MacAddr)) : Nat × Nat × MacAddr).2.2 = m := by
  have h := (mana_c7_probe_mac_filtering
    [⟨some 5, [⟨some 7, 0, 0⟩, ⟨none, -2, 0⟩]⟩] 5).2.2.2
    [some 7, some 9] [7, 9] (by decide) (by decide)
  exact h ((0 : Nat), (1 : Nat), (7 : MacAddr)) (by decide)

/-! ## Cross-process coordination: mana_init_shared_data, mana_init_once,
the probe-side counting in mana_probe_port, and mana_pci_remove
(mana.c lines 861-955, 1023-1026, 1110-1112, 1261-1304), claim C3 -/

/-- struct mana_shared_data: the record in the shared memzone. -/
structure MpSharedData where
  init_done : Bool
  primary_cnt : Int
  secondary_cnt : Int
deriving DecidableEq

/-- mana_local_data: the per-process static mirror (its primary_cnt is
never used by mana.c, so only init_done and secondary_cnt are modelled). -/
structure MpLocalData where
  init_done : Bool
  secondary_cnt : Int
deriving DecidableEq

/-- rte_eal_process_type() for a given process. -/
inductive ProcType
  | primary
  | secondary
deriving DecidableEq

/-- Global state of the multi-process coordination model. Processes are
named by Nat. `mz_exists` says whether the named memzone
MZ_MANA_SHARED_DATA currently exists; `shared` is the contents of the
shared record (mana.c never resets a process's mana_shared_data pointer,
so attached processes keep addressing the record even after
rte_memzone_free — the model keeps the record's contents for them);
`attached p` is whether process p's mana_shared_data pointer is non-NULL;
`locals p` is process p's mana_local_data. `primary_init_cnt` and
`secondary_init_cnt p` are ghost counters of how many times
mana_mp_init_primary resp. mana_mp_init_secondary (in process p) have
run (both are modelled as succeeding). `fatal` is set when an
RTE_VERIFY fires (or a NULL shared pointer is dereferenced); a fatal
state freezes. -/
structure MpState where
  mz_exists : Bool
  shared : MpSharedData
  attached : Nat → Bool
  locals : Nat → MpLocalData
  primary_init_cnt : Nat
  secondary_init_cnt : Nat → Nat
  fatal : Bool

/-- The operations driving the model: a PCI probe by process p whose
port-probe part succeeds iff `port_ok` (covering the failure of
mana_probe_port before it reaches the counter increments), and a PCI
remove by process p. -/
inductive MpOp
  | probe (p : Nat) (port_ok : Bool)
  | remove (p : Nat)

/-- The initial state: no memzone, nothing attached, all counters zero. -/
def mpInitState : MpState :=
  { mz_exists := false, shared := ⟨false, 0, 0⟩,
    attached := fun _ => false, locals := fun _ => ⟨false, 0⟩,
    primary_init_cnt := 0, secondary_init_cnt := fun _ => 0, fatal := false }

/-- mana_init_shared_data (mana.c lines 862-903) as run by process p:
skip when this process already attached; a primary reserves the named
memzone (failing when it already exists, as rte_memzone_reserve does for
a duplicate name), zeroes it and attaches; a secondary looks the memzone
up (failing when absent), attaches, and zeroes its mana_local_data. -/
def mana_init_shared_data (role : Nat → ProcType) (p : Nat) (s : MpState) :
    Int × MpState :=
  if s.attached p then (0, s)
  else match role p with
    | .primary =>
      if s.mz_exists then (-1, s)
      else (0, { s with mz_exists := true, shared := ⟨false, 0, 0⟩,
                        attached := fun q => if q = p then true else s.attached q })
    | .secondary =>
      if s.mz_exists then
        (0, { s with attached := fun q => if q = p then true else s.attached q,
                     locals := fun q => if q = p then ⟨false, 0⟩ else s.locals q })
      else (-1, s)

/-- mana_init_once (mana.c lines 908-955) as run by process p: ensure the
shared data exists, then under the shared lock run the role's one-time
init unless its init_done flag (shared for primaries, process-local for
secondaries) is already set; the ghost counter records each actual run of
mana_mp_init_primary / mana_mp_init_secondary (modelled as succeeding). -/
def mana_init_once (role : Nat → ProcType) (p : Nat) (s : MpState) :
    Int × MpState :=
  let r := mana_init_shared_data role p s
  if r.1 ≠ 0 then r
  else match role p with
    | .primary =>
      if r.2.shared.init_done then (0, r.2)
      else (0, { r.2 with shared := { r.2.shared with init_done := true },
                          primary_init_cnt := r.2.primary_init_cnt + 1 })
    | .secondary =>
      if (r.2.locals p).init_done then (0, r.2)
      else (0, { r.2 with
        locals := fun q => if q = p then
            { r.2.locals q with init_done := true } else r.2.locals q,
        secondary_init_cnt := fun q => if q = p then
            r.2.secondary_init_cnt q + 1 else r.2.secondary_init_cnt q })

/-- One PCI probe (mana_pci_probe → mana_init_once, then mana_probe_port
on the port): on a successful port probe a primary increments
shared->primary_cnt (mana.c lines 1110-1112), a secondary increments both
shared->secondary_cnt and its local secondary_cnt (lines 1023-1026). -/
def mana_probe_step (role : Nat → ProcType) (p : Nat) (port_ok : Bool)
    (s : MpState) : MpState :=
  let r := mana_init_once role p s
  if r.1 ≠ 0 then r.2
  else if port_ok then
    match role p with
    | .primary =>
      { r.2 with shared := { r.2.shared with
          primary_cnt := r.2.shared.primary_cnt + 1 } }
    | .secondary =>
      { r.2 with
        shared := { r.2.shared with
          secondary_cnt := r.2.shared.secondary_cnt + 1 },
        locals := fun q => if q = p then
            { r.2.locals q with
              secondary_cnt := (r.2.locals q).secondary_cnt + 1 }
          else r.2.locals q }
  else r.2

/-- mana_pci_remove (mana.c lines 1261-1304) as run by process p: both
branches first dereference mana_shared_data (fatal if the process never
attached); RTE_VERIFY demands a strictly positive count before each
decrement, turning a zero count into a fatal assertion rather than a
wrap-around; the last primary frees the memzone (and runs
mana_mp_uninit_primary), a secondary whose local count reaches zero runs
mana_mp_uninit_secondary. -/
def mana_remove_step (role : Nat → ProcType) (p : Nat) (s : MpState) : MpState :=
  if ¬ s.attached p then { s with fatal := true }
  else match role p with
  | .primary =>
    if s.shared.primary_cnt ≤ 0 then { s with fatal := true }
    else
      let s1 := { s with shared := { s.shared with
        primary_cnt := s.shared.primary_cnt - 1 } }
      if s1.shared.primary_cnt = 0 then { s1 with mz_exists := false } else s1
  | .secondary =>
    if s.shared.secondary_cnt ≤ 0 then { s with fatal := true }
    else
      let s1 := { s with shared := { s.shared with
        secondary_cnt := s.shared.secondary_cnt - 1 } }
      if (s1.locals p).secondary_cnt ≤ (0 : Int) then { s1 with fatal := true }
      else { s1 with locals := fun q => if q = p then
               { s1.locals q with
                 secondary_cnt := (s1.locals q).secondary_cnt - 1 }
             else s1.locals q }

/-- One step of the model; a fatal (aborted) state takes no further steps. -/
def mana_step (role : Nat → ProcType) (s : MpState) : MpOp → MpState
  | .probe p port_ok => if s.fatal then s else mana_probe_step role p port_ok s
  | .remove p => if s.fatal then s else mana_remove_step role p s

/-- Run a sequence of probe/remove operations from the initial state. -/
def mana_run (role : Nat → ProcType) (ops : List MpOp) : MpState :=
  ops.foldl (mana_step role) mpInitState

/-- DPDK's process model: at most one process is the primary. -/
def UniquePrimary (role : Nat → ProcType) : Prop :=
  ∀ p q, role p = .primary → role q = .primary → p = q

/-- The coordination invariant: all counts non-negative; the per-process
ghost init counter mirrors the process's init_done flag; a process that
never attached still has zeroed local data; and (in the unique-primary
process model) the primary ghost init counter mirrors the shared
init_done flag, which an unattached primary has not yet set. -/
def MpInv (role : Nat → ProcType) (s : MpState) : Prop :=
  0 ≤ s.shared.primary_cnt ∧
  0 ≤ s.shared.secondary_cnt ∧
  (∀ p, 0 ≤ (s.locals p).secondary_cnt) ∧
  (∀ p, s.secondary_init_cnt p = if (s.locals p).init_done then 1 else 0) ∧
  (∀ p, s.attached p = false → s.locals p = ⟨false, 0⟩) ∧
  (UniquePrimary role →
    s.primary_init_cnt = (if s.shared.init_done then 1 else 0) ∧
    (∀ p, role p = .primary → s.attached p = false →
      s.primary_init_cnt = 0 ∧ s.shared.init_done = false))

/-- A process for which mana_init_shared_data succeeds is attached. -/
theorem attached_after_init_shared (role : Nat → ProcType) (p : Nat) (s : MpState)
    (h : (mana_init_shared_data role p s).1 = 0) :
    (mana_init_shared_data role p s).2.attached p = true := by
  unfold mana_init_shared_data at h ⊢
  by_cases ha : s.attached p = true
  · simpa [ha] using ha
  · cases hr : role p with
    | primary =>
      by_cases hmz : s.mz_exists = true
      · simp [ha, hr, hmz] at h
      · simp [ha, hr, hmz]
    | secondary =>
      by_cases hmz : s.mz_exists = true
      · simp [ha, hr, hmz]
      · simp [ha, hr, hmz] at h

/-- mana_init_shared_data preserves the coordination invariant. -/
theorem mp_inv_init_shared (role : Nat → ProcType) (p : Nat) (s : MpState)
    (h : MpInv role s) : MpInv role (mana_init_shared_data role p s).2 := by
  obtain ⟨h1, h2, h3, h4, h5, h6⟩ := h
  unfold mana_init_shared_data
  by_cases ha : s.attached p = true
  · simpa [ha] using ⟨h1, h2, h3, h4, h5, h6⟩
  · have ha2 : s.attached p = false := by simpa using ha
    cases hr : role p with
    | primary =>
      by_cases hmz : s.mz_exists = true
      · simpa [ha2, hr, hmz] using ⟨h1, h2, h3, h4, h5, h6⟩
      · have hmz2 : s.mz_exists = false := by simpa using hmz
        simp only [ha2, hr, hmz2, Bool.false_eq_true, if_false]
        refine ⟨by norm_num, by norm_num, h3, h4, ?_, ?_⟩
        · intro q hq
          simp only at hq
          by_cases hqp : q = p
          · simp [hqp] at hq
          · simp only [hqp, if_false] at hq
            exact h5 q hq
        · intro hu
          have hz := (h6 hu).2 p hr ha2
          refine ⟨by simpa using hz.1, ?_⟩
          intro q hq hq2
          exact ⟨hz.1, rfl⟩
    | secondary =>
      by_cases hmz : s.mz_exists = true
      · simp only [ha2, hr, hmz, Bool.false_eq_true, if_false, if_true]
        refine ⟨h1, h2, ?_, ?_, ?_, ?_⟩
        · intro q
          by_cases hqp : q = p <;> simp only [hqp, if_true, if_false]
          · norm_num
          · exact h3 q
        · intro q
          by_cases hqp : q = p <;> simp only [hqp, if_true, if_false]
          · have hl := h5 p ha2
            have h4p := h4 p
            rw [hl] at h4p
            simpa using h4p
          · exact h4 q
        · intro q hq
          simp only at hq
          by_cases hqp : q = p
          · simp [hqp] at hq
          · simp only [hqp, if_false] at hq ⊢
            exact h5 q hq
        · intro hu
          refine ⟨(h6 hu).1, ?_⟩
          intro q hq hq2
          by_cases hqp : q = p
          · rw [hqp, hr] at hq
            exact absurd hq (by simp)
          · simp only [hqp, if_false] at hq2
            exact (h6 hu).2 q hq hq2
      · simpa [ha2, hr, hmz] using ⟨h1, h2, h3, h4, h5, h6⟩

/-- A process for which mana_init_once succeeds is attached. -/
theorem attached_after_init_once (role : Nat → ProcType) (p : Nat) (s : MpState)
    (h : (mana_init_once role p s).1 = 0) :
    (mana_init_once role p s).2.attached p = true := by
  unfold mana_init_once at h ⊢
  by_cases hz : (mana_init_shared_data role p s).1 ≠ 0
  · rw [if_pos hz] at h
    exact absurd h hz
  · rw [if_neg hz] at h ⊢
    have hz0 : (mana_init_shared_data role p s).1 = 0 := not_not.mp hz
    have hAt := attached_after_init_shared role p s hz0
    cases hr : role p <;> dsimp only <;> split <;> simpa using hAt

/-- mana_init_once preserves the coordination invariant. -/
theorem mp_inv_init_once (role : Nat → ProcType) (p : Nat) (s : MpState)
    (h : MpInv role s) : MpInv role (mana_init_once role p s).2 := by
  have hI := mp_inv_init_shared role p s h
  obtain ⟨i1, i2, i3, i4, i5, i6⟩ := hI
  unfold mana_init_once
  by_cases hz : (mana_init_shared_data role p s).1 ≠ 0
  · rw [if_pos hz]
    exact ⟨i1, i2, i3, i4, i5, i6⟩
  · rw [if_neg hz]
    have hz0 : (mana_init_shared_data role p s).1 = 0 := not_not.mp hz
    have hAt := attached_after_init_shared role p s hz0
    cases hr : role p with
    | primary =>
      dsimp only
      by_cases hd : (mana_init_shared_data role p s).2.shared.init_done = true
      · rw [if_pos hd]
        exact ⟨i1, i2, i3, i4, i5, i6⟩
      · rw [if_neg hd]
        have hd2 : (mana_init_shared_data role p s).2.shared.init_done = false := by
          simpa using hd
        refine ⟨i1, i2, i3, i4, i5, ?_⟩
        intro hu
        have hcnt : (mana_init_shared_data role p s).2.primary_init_cnt = 0 := by
          have := (i6 hu).1
          rwa [hd2, if_neg (by simp)] at this
        constructor
        · simp [hcnt]
        · intro q hq hq2
          have hqp : q = p := hu q p hq hr
          rw [hqp] at hq2
          simp only [hAt] at hq2
          exact absurd hq2 (by decide)
    | secondary =>
      dsimp only
      by_cases hd : ((mana_init_shared_data role p s).2.locals p).init_done = true
      · rw [if_pos hd]
        exact ⟨i1, i2, i3, i4, i5, i6⟩
      · rw [if_neg hd]
        have hd2 : ((mana_init_shared_data role p s).2.locals p).init_done = false := by
          simpa using hd
        refine ⟨i1, i2, ?_, ?_, ?_, ?_⟩
        · intro q
          by_cases hqp : q = p <;> simp only [hqp, if_true, if_false]
          · exact i3 p
          · exact i3 q
        · intro q
          by_cases hqp : q = p <;> simp only [hqp, if_true, if_false]
          · have := i4 p
            rw [hd2, if_neg (by simp)] at this
            simp only [this]
          · exact i4 q
        · intro q hq
          simp only at hq
          by_cases hqp : q = p
          · rw [hqp] at hq
            simp only [hAt] at hq
            exact absurd hq (by decide)
          · simp only [hqp, if_false] at hq ⊢
            exact i5 q hq
        · intro hu
          refine ⟨(i6 hu).1, ?_⟩
          intro q hq hq2
          by_cases hqp : q = p
          · rw [hqp, hr] at hq
            exact absurd hq (by simp)
          · exact (i6 hu).2 q hq hq2

/-- mana_probe_step preserves the coordination invariant. -/
theorem mp_inv_probe_step (role : Nat → ProcType) (p : Nat) (port_ok : Bool)
    (s : MpState) (h : MpInv role s) :
    MpInv role (mana_probe_step role p port_ok s) := by
  have hI := mp_inv_init_once role p s h
  obtain ⟨i1, i2, i3, i4, i5, i6⟩ := hI
  unfold mana_probe_step
  by_cases hz : (mana_init_once role p s).1 ≠ 0
  · rw [if_pos hz]
    exact ⟨i1, i2, i3, i4, i5, i6⟩
  · rw [if_neg hz]
    have hz0 : (mana_init_once role p s).1 = 0 := not_not.mp hz
    have hAt := attached_after_init_once role p s hz0
    by_cases hok : port_ok = true
    · rw [if_pos hok]
      cases hr : role p with
      | primary =>
        dsimp only
        refine ⟨add_nonneg i1 (by norm_num), i2, i3, i4, i5, ?_⟩
        intro hu
        exact ⟨(i6 hu).1, fun q hq hq2 => (i6 hu).2 q hq hq2⟩
      | secondary =>
        dsimp only
        refine ⟨i1, add_nonneg i2 (by norm_num), ?_, ?_, ?_, ?_⟩
        · intro q
          by_cases hqp : q = p <;> simp only [hqp, if_true, if_false]
          · exact add_nonneg (i3 p) (by norm_num)
          · exact i3 q
        · intro q
          by_cases hqp : q = p <;> simp only [hqp, if_true, if_false]
          · exact i4 p
          · exact i4 q
        · intro q hq
          simp only at hq
          by_cases hqp : q = p
          · rw [hqp] at hq
            simp only [hAt] at hq
            exact absurd hq (by decide)
          · simp only [hqp, if_false] at hq ⊢
            exact i5 q hq
        · intro hu
          exact ⟨(i6 hu).1, fun q hq hq2 => (i6 hu).2 q hq hq2⟩
    · rw [if_neg hok]
      exact ⟨i1, i2, i3, i4, i5, i6⟩

/-- mana_remove_step preserves the coordination invariant. -/
theorem mp_inv_remove_step (role : Nat → ProcType) (p : Nat) (s : MpState)
    (h : MpInv role s) : MpInv role (mana_remove_step role p s) := by
  obtain ⟨h1, h2, h3, h4, h5, h6⟩ := h
  unfold mana_remove_step
  by_cases ha : s.attached p = true
  · rw [if_neg (by simp [ha])]
    cases hr : role p with
    | primary =>
      dsimp only
      by_cases hc : s.shared.primary_cnt ≤ 0
      · rw [if_pos hc]
        exact ⟨h1, h2, h3, h4, h5, h6⟩
      · rw [if_neg hc]
        have hs1 : MpInv role
            { s with shared := { s.shared with
              primary_cnt := s.shared.primary_cnt - 1 } } := by
          refine ⟨sub_nonneg.mpr (by linarith [not_le.mp hc]), h2, h3, h4, h5, ?_⟩
          intro hu
          exact ⟨(h6 hu).1, fun q hq hq2 => (h6 hu).2 q hq hq2⟩
        split
        · exact hs1
        · exact hs1
    | secondary =>
      dsimp only
      by_cases hc : s.shared.secondary_cnt ≤ 0
      · rw [if_pos hc]
        exact ⟨h1, h2, h3, h4, h5, h6⟩
      · rw [if_neg hc]
        by_cases hl : (s.locals p).secondary_cnt ≤ (0 : Int)
        · rw [if_pos hl]
          refine ⟨h1, sub_nonneg.mpr (by linarith [not_le.mp hc]), h3, h4, h5, ?_⟩
          intro hu
          exact ⟨(h6 hu).1, fun q hq hq2 => (h6 hu).2 q hq hq2⟩
        · rw [if_neg hl]
          refine ⟨h1, sub_nonneg.mpr (by linarith [not_le.mp hc]), ?_, ?_, ?_, ?_⟩
          · intro q
            by_cases hqp : q = p <;> simp only [hqp, if_true, if_false]
            · exact sub_nonneg.mpr (by linarith [not_le.mp hl])
            · exact h3 q
          · intro q
            by_cases hqp : q = p <;> simp only [hqp, if_true, if_false]
            · exact h4 p
            · exact h4 q
          · intro q hq
            simp only at hq
            by_cases hqp : q = p
            · rw [hqp] at hq
              simp only [ha] at hq
              exact absurd hq (by decide)
            · simp only [hqp, if_false] at hq ⊢
              exact h5 q hq
          · intro hu
            exact ⟨(h6 hu).1, fun q hq hq2 => (h6 hu).2 q hq hq2⟩
  · rw [if_pos (by simpa using ha)]
    exact ⟨h1, h2, h3, h4, h5, h6⟩

/-- Every step of the model preserves the coordination invariant. -/
theorem mp_inv_step (role : Nat → ProcType) (s : MpState) (op : MpOp)
    (h : MpInv role s) : MpInv role (mana_step role s op) := by
  cases op with
  | probe p port_ok =>
    simp only [mana_step]
    split
    · exact h
    · exact mp_inv_probe_step role p port_ok s h
  | remove p =>
    simp only [mana_step]
    split
    · exact h
    · exact mp_inv_remove_step role p s h

/-- The initial state satisfies the coordination invariant. -/
theorem mp_inv_init_state (role : Nat → ProcType) : MpInv role mpInitState := by
  refine ⟨by norm_num [mpInitState], by norm_num [mpInitState],
    fun p => by norm_num [mpInitState], fun p => by simp [mpInitState],
    fun p hp => rfl, fun hu => ⟨by simp [mpInitState], fun p hp hp2 => ⟨rfl, rfl⟩⟩⟩

/-- Every reachable state of the model satisfies the invariant. -/
theorem mp_inv_run (role : Nat → ProcType) (ops : List MpOp) :
    MpInv role (mana_run role ops) := by
  have hgen : ∀ (l : List MpOp) (s : MpState), MpInv role s →
      MpInv role (List.foldl (mana_step role) s l) := by
    intro l
    induction l with
    | nil => intro s hs; exact hs
    | cons op rest ih =>
      intro s hs
      exact ih (mana_step role s op) (mp_inv_step role s op hs)
  exact hgen ops mpInitState (mp_inv_init_state role)

/-- C3: over every sequence of probe and remove operations across any
assignment of process roles, the shared primary/secondary counts and every
per-process secondary count never go negative; mana_mp_init_secondary runs
at most once per process, and (in DPDK's unique-primary process model)
mana_mp_init_primary runs at most once and has run exactly once whenever
the shared init_done flag is set; a repeated mana_init_once call by an
attached, already-initialized process is a no-op returning success; and a
remove that would decrement a zero count halts at the RTE_VERIFY as a
fatal assertion, leaving every count unchanged rather than wrapping
around. -/
theorem mana_c3_counts_and_one_time_init (role : Nat → ProcType) (ops : List MpOp) :
    (0 ≤ (mana_run role ops).shared.primary_cnt ∧
     0 ≤ (mana_run role ops).shared.secondary_cnt ∧
     ∀ p, 0 ≤ ((mana_run role ops).locals p).secondary_cnt) ∧
    (∀ p, (mana_run role ops).secondary_init_cnt p ≤ 1) ∧
    (UniquePrimary role → (mana_run role ops).primary_init_cnt ≤ 1) ∧
    (UniquePrimary role → (mana_run role ops).shared.init_done = true →
      (mana_run role ops).primary_init_cnt = 1) ∧
    (∀ (s : MpState) (p : Nat), role p = .primary → s.attached p = true →
      s.shared.init_done = true → mana_init_once role p s = (0, s)) ∧
    (∀ (s : MpState) (p : Nat), role p = .secondary → s.attached p = true →
      (s.locals p).init_done = true → mana_init_once role p s = (0, s)) ∧
    (∀ (s : MpState) (p : Nat), s.fatal = false → s.attached p = true →
      role p = .primary → s.shared.primary_cnt = 0 →
      mana_step role s (.remove p) = { s with fatal := true }) ∧
    (∀ (s : MpState) (p : Nat), s.fatal = false → s.attached p = true →
      role p = .secondary → s.shared.secondary_cnt = 0 →
      mana_step role s (.remove p) = { s with fatal := true }) := by
  obtain ⟨h1, h2, h3, h4, h5, h6⟩ := mp_inv_run role ops
  refine ⟨⟨h1, h2, h3⟩, ?_, ?_, ?_, ?_, ?_, ?_, ?_⟩
  · intro p
    rw [h4 p]
    split <;> norm_num
  · intro hu
    rw [(h6 hu).1]
    split <;> norm_num
  · intro hu hd
    rw [(h6 hu).1, if_pos hd]
  · intro s p hr ha hd
    unfold mana_init_once mana_init_shared_data
    simp [ha, hr, hd]
  · intro s p hr ha hd
    unfold mana_init_once mana_init_shared_data
    simp [ha, hr, hd]
  · intro s p hf ha hr hc
    simp only [mana_step]
    rw [if_neg (by simp [hf])]
    unfold mana_remove_step
    rw [if_neg (by simp [ha]), hr]
    dsimp only
    rw [if_pos (le_of_eq hc)]
  · intro s p hf ha hr hc
    simp only [mana_step]
    rw [if_neg (by simp [hf])]
    unfold mana_remove_step
    rw [if_neg (by simp [ha]), hr]
    dsimp only
    rw [if_pos (le_of_eq hc)]

/-- A role assignment with exactly one primary process (process 0). -/
def mpRole0 : Nat → ProcType := fun p => if p = 0 then .primary else .secondary

/-- A state whose primary count is zero while process 0 is attached. -/
def mpState0 : MpState :=
  { mz_exists := true, shared := ⟨true, 0, 0⟩,
    attached := fun q => q == 0, locals := fun _ => ⟨false, 0⟩,
    primary_init_cnt := 1, secondary_init_cnt := fun _ => 0, fatal := false }

/-- Witness for C3: removing from a state whose primary count is already
zero trips the RTE_VERIFY — the step only sets the fatal flag, leaving
every count unchanged; all hypotheses are discharged at this concrete
state. -/
theorem mana_c3_counts_and_one_time_init_witness :
    mana_step mpRole0 mpState0 (MpOp.remove 0) = { mpState0 with fatal := true } :=
  (mana_c3_counts_and_one_time_init mpRole0 []).2.2.2.2.2.2.1 mpState0 0
    (by decide) (by decide) (by decide) (by decide)

/-- Witness for C4: stopping a fully started device publishes the stubs,
the secondary stop request and the fence as the first three actions of
the trace; the bounded quantification of the theorem is instantiated at
this concrete oracle and state. -/
theorem mana_c4_stop_publishes_stubs_first_witness :
    List.take 3 (mana_dev_stop ⟨0, 0⟩ ⟨.live, .live, true, true, true⟩).2.2
      = [.publish_stubs, .mp_req_stop, .wmb] :=
  (mana_c4_stop_publishes_stubs_first ⟨0, 0⟩ ⟨.live, .live, true, true, true⟩).2.2.1
